import Mathlib

/-
Shallow embedding of the repository's `src/py_config/base_config.py`.

The source is a pydantic-v1 based configuration loader:
  * `class_from_name` resolves a dotted path to a class object,
  * `BaseContainerCfg.specialize` is a post root-validator that walks the
    validated field values of an aggregate, specializing scalar
    `BaseElementCfg` fields and clearing bookkeeping attributes of
    list/dict members,
  * `BaseElementCfg.args_to_kwargs` is a pre root-validator that packs the
    raw input mapping into the `kwargs` field (first pass) or strips the
    `class_path`/`base_class` bookkeeping keys (second pass),
  * `BaseElementCfg.specialize_field` resolves `class_path`, checks the
    subclass relation against `self.__class__`, and re-runs construction
    of the resolved class on a fresh argument mapping.

Python values are embedded as the inductive `Val`; pydantic models become
`Val.vobj className fieldAssocList`.  Class definitions (module, parent,
own pydantic fields) live in an explicit class table, and importable
modules in an explicit module table, so that `class_from_name` is a pure
lookup.  Construction of a model from a raw mapping is the fuel-indexed
function `construct`, written by structural recursion on the fuel so that
everything reduces by `rfl`/`decide` on concrete inputs.
-/

namespace PyConfig

/-- Python runtime values as they appear in this program: strings, booleans,
`None`, lists, dicts (association lists in insertion order), and pydantic
model instances (`vobj className fields`). -/
inductive Val where
  | vstr  : String → Val
  | vbool : Bool → Val
  | vnone : Val
  | vlist : List Val → Val
  | vdict : List (String × Val) → Val
  | vobj  : String → List (String × Val) → Val
  deriving Repr

/-- Field maps of dicts and objects: association lists in insertion order
(Python dicts preserve insertion order and have no duplicate keys). -/
abbrev Fields := List (String × Val)

/-- First-match association-list lookup (Python `d[k]` / `getattr`). -/
def alookup {α : Type} : List (String × α) → String → Option α
  | [], _ => none
  | (k, v) :: rest, key => if k = key then some v else alookup rest key

/-- Python `k in d`. -/
def hasKey (d : Fields) (k : String) : Bool := (alookup d k).isSome

/-- Python `d[k] = v`: replace the value in place if the key exists
(keeping its position), otherwise append the new binding. -/
def pySet (d : Fields) (k : String) (v : Val) : Fields :=
  if hasKey d k then d.map (fun kv => if kv.1 = k then (k, v) else kv)
  else d ++ [(k, v)]

/-- Python `del d[k]`. -/
def pyDel (d : Fields) (k : String) : Fields :=
  d.filter (fun kv => !(kv.1 == k))

/-- A Python dict display `{k1: v1, **..., kn: vn}`: left-to-right
insertion with override. -/
def pyDictLit (l : List (String × Val)) : Fields :=
  l.foldl (fun acc kv => pySet acc kv.1 kv.2) []

/-- The pydantic field types occurring in this repository:
`str`, `Optional[str] = None`, `Optional[bool] = None`,
`Dict[str, Any] = None` (the `kwargs` store), model fields, lists and
dicts of models, and lists of plain strings. -/
inductive FieldTy where
  | tstr      : FieldTy
  | toptStr   : FieldTy
  | toptBool  : FieldTy
  | tkwargs   : FieldTy
  | telem     : String → FieldTy
  | tlistElem : String → FieldTy
  | tdictElem : String → FieldTy
  | tlistStr  : FieldTy
  deriving Repr

/-- A Python class: the module it is defined in, its (single) base class,
and the pydantic fields it declares itself (inherited fields come from the
parent chain). -/
structure ClassDef where
  module : String
  parent : Option String
  ownFields : List (String × FieldTy)
  deriving Repr

/-- All classes of the running program, keyed by bare class name. -/
abbrev ClassTable := List (String × ClassDef)

/-- The importable modules, each with the names defined in it
(`importlib.import_module` + `getattr`). -/
abbrev ModuleTable := List (String × List String)

/-- `inspect.getmro`, following the single-inheritance parent chain; the
recursion is bounded by a fuel argument. -/
def ancestorsUpTo (ct : ClassTable) : Nat → String → List String
  | 0, _ => []
  | n + 1, c =>
    c :: (match alookup ct c with
      | some cd =>
        match cd.parent with
        | some p => ancestorsUpTo ct n p
        | none => []
      | none => [])

/-- `inspect.getmro(c)` restricted to the config-class chain. -/
def getmro (ct : ClassTable) (c : String) : List String :=
  ancestorsUpTo ct (ct.length + 1) c

/-- `issubclass(sub, sup)` (reflexive). -/
def isSubcls (ct : ClassTable) (sub sup : String) : Bool :=
  (getmro ct sub).contains sup

/-- Whether a class derives from `BaseElementCfg`
(`isinstance(x, BaseElementCfg)` on its instances). -/
def derivesElement (ct : ClassTable) (c : String) : Bool :=
  isSubcls ct c "BaseElementCfg"

/-- Whether a class derives from `BaseContainerCfg` (and so carries the
`specialize` post root-validator). -/
def derivesContainer (ct : ClassTable) (c : String) : Bool :=
  isSubcls ct c "BaseContainerCfg"

/-- The pydantic fields of a class in declaration order: parent-chain
fields first (pydantic collects fields along the MRO, base first). -/
def allFields (ct : ClassTable) (c : String) : List (String × FieldTy) :=
  ((getmro ct c).reverse).foldl
    (fun acc name =>
      acc ++ (match alookup ct name with
        | some cd => cd.ownFields
        | none => []))
    []

/-- The error outcomes of the embedded code.  `missingTypeIdentifier` and
`notASubclass` are the two `ConfigurationError` raises of the source;
`unresolvedType` stands for the `ModuleNotFoundError`/`AttributeError`
surfaced by `class_from_name`; `attributeError` for a failed attribute
assignment; `typeError` for `**None`; `validationError` for a pydantic
field-validation failure; `outOfFuel` for fuel exhaustion of the
embedding (never reached on the concrete runs below). -/
inductive Err where
  | missingTypeIdentifier : Err
  | unresolvedType : Err
  | notASubclass : Err
  | attributeError : Err
  | typeError : Err
  | validationError : Err
  | outOfFuel : Err
  deriving Repr, DecidableEq

/-- Split a character list around its last `'.'`, returning the parts
before and after it, or `none` when no dot occurs. -/
def splitLastDot : List Char → Option (List Char × List Char)
  | [] => none
  | c :: rest =>
    match splitLastDot rest with
    | some (b, a) => some (c :: b, a)
    | none => if c = '.' then some ([], rest) else none

/-- `class_path.rsplit(".", 1)` with the source's `except ValueError`
fallback to the `__main__` scope for a bare name. -/
def rsplitDot (path : String) : String × String :=
  match splitLastDot path.data with
  | some (b, a) => (String.mk b, String.mk a)
  | none => ("__main__", path)

/-- `class_from_name` of the source: split the dotted path, import the
module, look the bare name up in it.  A missing module or a missing name
is the resolution failure. -/
def class_from_name (mt : ModuleTable) (path : String) : Except Err String :=
  match alookup mt (rsplitDot path).1 with
  | none => .error .unresolvedType
  | some names =>
    if names.contains (rsplitDot path).2 then .ok (rsplitDot path).2
    else .error .unresolvedType

/-- `BaseElementCfg.args_to_kwargs`: the pre root-validator.  Requires
`class_path`; on a first-pass mapping (no `base_class`) packs every other
key into `kwargs`; on a second-pass mapping deletes the two bookkeeping
keys. -/
def args_to_kwargs (values : Fields) : Except Err Fields :=
  if hasKey values "class_path" then
    if hasKey values "base_class" then
      .ok (pyDel (pyDel values "base_class") "class_path")
    else
      .ok (pySet values "kwargs"
        (.vdict (values.filter
          (fun kv => !(kv.1 == "class_path") && !(kv.1 == "base_class")))))
  else
    .error .missingTypeIdentifier

/-- `element.class_path = element.base_class = element.kwargs = None`. -/
def setThree (f : Fields) : Fields :=
  pySet (pySet (pySet f "class_path" .vnone) "base_class" .vnone) "kwargs" .vnone

/-- Whether class `c` declares (possibly by inheritance) pydantic field
`name`; assigning an undeclared attribute on a pydantic model raises. -/
def hasField (ct : ClassTable) (c : String) (name : String) : Bool :=
  (allFields ct c).any (fun kv => kv.1 == name)

/-- The sequence branch of `BaseContainerCfg.specialize`: it assigns the
three bookkeeping attributes of every member unconditionally, which
raises on any member that is not a model carrying those fields. -/
def clearBookkeepingL (ct : ClassTable) (v : Val) : Except Err Val :=
  match v with
  | .vobj c f =>
    if hasField ct c "class_path" && hasField ct c "base_class"
        && hasField ct c "kwargs" then
      .ok (.vobj c (setThree f))
    else
      .error .attributeError
  | _ => .error .attributeError

/-- The map branch of `BaseContainerCfg.specialize` for one value: only a
`BaseElementCfg` instance is cleaned up, everything else passes through
unchanged. -/
def clearIfElem (ct : ClassTable) (v : Val) : Val :=
  match v with
  | .vobj c f => if derivesElement ct c then .vobj c (setThree f) else .vobj c f
  | v => v

/-- The map branch of `BaseContainerCfg.specialize` over all entries,
preserving keys and order. -/
def clearDictVals (ct : ClassTable) : Fields → Fields
  | [] => []
  | (kk, e) :: rest => (kk, clearIfElem ct e) :: clearDictVals ct rest

/-- `clearListElems` applies the sequence branch to every member in
order. -/
def clearListElems (ct : ClassTable) : List Val → Except Err (List Val)
  | [] => .ok []
  | v :: rest =>
    match clearBookkeepingL ct v with
    | .error e => .error e
    | .ok v' =>
      match clearListElems ct rest with
      | .error e => .error e
      | .ok rest' => .ok (v' :: rest')

/-- `BaseElementCfg.specialize_field`, parameterized by the construction
function `cf` it feeds the fresh argument mapping back into
(`pydantic.parse_obj_as`).  `selfCls` is `self.__class__`, `f` the
validated fields of the raw object. -/
def specializeArgs (specialized : String) (kw : Fields) : Fields :=
  pyDictLit (("class_path", .vstr specialized) :: kw ++ [("base_class", .vbool false)])

def specialize_fieldWith (cf : String → Val → Except Err Val)
    (ct : ClassTable) (mt : ModuleTable) (selfCls : String) (f : Fields) :
    Except Err Val :=
  match alookup f "class_path" with
  | some (.vstr path) =>
    match class_from_name mt path with
    | .error e => .error e
    | .ok specialized =>
      if (getmro ct specialized).contains selfCls then
        match alookup f "kwargs" with
        | some (.vdict kw) => cf specialized (.vdict (specializeArgs specialized kw))
        | _ => .error .typeError
      else
        .error .notASubclass
  | _ => .error .attributeError

/-- One entry of `BaseContainerCfg.specialize`: lists and dicts are
cleaned up, a scalar `BaseElementCfg` value is specialized via `sf`,
anything else passes through. -/
def specEntryWith (sf : String → Fields → Except Err Val)
    (ct : ClassTable) (v : Val) : Except Err Val :=
  match v with
  | .vlist l =>
    match clearListElems ct l with
    | .error e => .error e
    | .ok l' => .ok (.vlist l')
  | .vdict d => .ok (.vdict (clearDictVals ct d))
  | .vobj c f => if derivesElement ct c then sf c f else .ok (.vobj c f)
  | v => .ok v

/-- `BaseContainerCfg.specialize` over all validated values, in field
order. -/
def specializeValuesWith (sf : String → Fields → Except Err Val)
    (ct : ClassTable) : Fields → Except Err Fields
  | [] => .ok []
  | (k, v) :: rest =>
    match specEntryWith sf ct v with
    | .error e => .error e
    | .ok v' =>
      match specializeValuesWith sf ct rest with
      | .error e => .error e
      | .ok rest' => .ok ((k, v') :: rest')

/-- Validation of one raw value against a model-typed position: a raw
dict is constructed via `cf`, an existing instance of the right class
passes through, anything else is a validation failure. -/
def elemValWith (cf : String → Val → Except Err Val) (ct : ClassTable)
    (c : String) (v : Val) : Except Err Val :=
  match v with
  | .vdict d => cf c (.vdict d)
  | .vobj c' f => if isSubcls ct c' c then .ok (.vobj c' f) else .error .validationError
  | _ => .error .validationError

/-- Validation of a list of model-typed members, in order. -/
def elemListWith (cf : String → Val → Except Err Val) (ct : ClassTable)
    (c : String) : List Val → Except Err (List Val)
  | [] => .ok []
  | v :: rest =>
    match elemValWith cf ct c v with
    | .error e => .error e
    | .ok v' =>
      match elemListWith cf ct c rest with
      | .error e => .error e
      | .ok rest' => .ok (v' :: rest')

/-- Validation of a dict of model-typed values, preserving keys. -/
def elemDictWith (cf : String → Val → Except Err Val) (ct : ClassTable)
    (c : String) : Fields → Except Err Fields
  | [] => .ok []
  | (k, v) :: rest =>
    match elemValWith cf ct c v with
    | .error e => .error e
    | .ok v' =>
      match elemDictWith cf ct c rest with
      | .error e => .error e
      | .ok rest' => .ok ((k, v') :: rest')

/-- Validation of a `List[str]` field. -/
def strListVal : List Val → Except Err (List Val)
  | [] => .ok []
  | .vstr s :: rest =>
    match strListVal rest with
    | .error e => .error e
    | .ok rest' => .ok (.vstr s :: rest')
  | _ :: _ => .error .validationError

/-- pydantic validation of a single field of the given type against the
raw value found under its name (`none` when the key is absent: optional
fields fall back to their `None` default, required fields fail). -/
def validateFieldWith (cf : String → Val → Except Err Val) (ct : ClassTable) :
    FieldTy → Option Val → Except Err Val
  | .tstr, some (.vstr s) => .ok (.vstr s)
  | .tstr, _ => .error .validationError
  | .toptStr, none => .ok .vnone
  | .toptStr, some .vnone => .ok .vnone
  | .toptStr, some (.vstr s) => .ok (.vstr s)
  | .toptStr, some _ => .error .validationError
  | .toptBool, none => .ok .vnone
  | .toptBool, some .vnone => .ok .vnone
  | .toptBool, some (.vbool b) => .ok (.vbool b)
  | .toptBool, some _ => .error .validationError
  | .tkwargs, none => .ok .vnone
  | .tkwargs, some .vnone => .ok .vnone
  | .tkwargs, some (.vdict l) => .ok (.vdict l)
  | .tkwargs, some _ => .error .validationError
  | .telem c, some v => elemValWith cf ct c v
  | .telem _, none => .error .validationError
  | .tlistElem c, some (.vlist l) =>
    match elemListWith cf ct c l with
    | .error e => .error e
    | .ok l' => .ok (.vlist l')
  | .tlistElem _, _ => .error .validationError
  | .tdictElem c, some (.vdict d) =>
    match elemDictWith cf ct c d with
    | .error e => .error e
    | .ok d' => .ok (.vdict d')
  | .tdictElem _, _ => .error .validationError
  | .tlistStr, some (.vlist l) =>
    match strListVal l with
    | .error e => .error e
    | .ok l' => .ok (.vlist l')
  | .tlistStr, _ => .error .validationError

/-- pydantic validation of all declared fields in order, ignoring extra
keys of the raw mapping (pydantic v1 default `Extra.ignore`). -/
def validateAllWith (cf : String → Val → Except Err Val) (ct : ClassTable) :
    List (String × FieldTy) → Fields → Except Err Fields
  | [], _ => .ok []
  | (name, ty) :: rest, d =>
    match validateFieldWith cf ct ty (alookup d name) with
    | .error e => .error e
    | .ok v =>
      match validateAllWith cf ct rest d with
      | .error e => .error e
      | .ok vs => .ok ((name, v) :: vs)

/-- One construction step of a pydantic model `c` from a raw value, with
`cf` performing any nested construction: run the inherited pre
root-validator (`args_to_kwargs`, elements only), validate the declared
fields, then run the inherited post root-validator (`specialize`,
containers — every class of this program). -/
def constructBody (cf : String → Val → Except Err Val)
    (ct : ClassTable) (mt : ModuleTable) (c : String) (raw : Val) :
    Except Err Val :=
  match raw with
  | .vdict d =>
    match (if derivesElement ct c then args_to_kwargs d else .ok d) with
    | .error e => .error e
    | .ok d₁ =>
      match validateAllWith cf ct (allFields ct c) d₁ with
      | .error e => .error e
      | .ok vals =>
        if derivesContainer ct c then
          match specializeValuesWith (specialize_fieldWith cf ct mt) ct vals with
          | .error e => .error e
          | .ok vals₂ => .ok (.vobj c vals₂)
        else
          .ok (.vobj c vals)
  | _ => .error .validationError

/-- Fuel-indexed model construction (`Model(**raw)` /
`pydantic.parse_obj_as`); the fuel only bounds the recursion depth of the
embedding. -/
def construct (ct : ClassTable) (mt : ModuleTable) : Nat → String → Val → Except Err Val
  | 0, _, _ => .error .outOfFuel
  | fuel + 1, c, raw => constructBody (construct ct mt fuel) ct mt c raw

/-- Unfolding equation for one construction step. -/
theorem construct_succ (ct : ClassTable) (mt : ModuleTable) (fuel : Nat)
    (c : String) (raw : Val) :
    construct ct mt (fuel + 1) c raw = constructBody (construct ct mt fuel) ct mt c raw :=
  rfl

/-- `.dict(exclude_none=True)` re-serialization: model instances become
plain dicts with their `None`-valued fields omitted. -/
def Val.isNone : Val → Bool
  | .vnone => true
  | _ => false

def dumpEN : Nat → Val → Val
  | 0, v => v
  | fuel + 1, v =>
    match v with
    | .vobj _ f =>
      .vdict ((f.filter (fun kv => !(kv.2.isNone))).map
        (fun kv => (kv.1, dumpEN fuel kv.2)))
    | .vlist l => .vlist (l.map (dumpEN fuel))
    | .vdict d => .vdict (d.map (fun kv => (kv.1, dumpEN fuel kv.2)))
    | x => x

/-- The namespace-qualified name of a class (`module.Name`), for
comparison with the bare `__name__` the source uses. -/
def qualifiedName (ct : ClassTable) (c : String) : String :=
  match alookup ct c with
  | some cd => cd.module ++ "." ++ c
  | none => c

/-! ## The concrete class hierarchy of the repository's test suite

`base_config_test.py` declares `BaseItem(BaseElementCfg)`,
`Item1(BaseItem) {arg1: str}`, `Item2(Item1) {arg2: str}`,
`ItemX(BaseElementCfg) {arg1: str}` and container classes over them.  We
add sibling container classes whose member positions are declared at the
*base* type, and one with a plain `List[str]` field, to exercise the
claims at every container shape. -/

def TestMT : ModuleTable :=
  [("base_config_test", ["BaseItem", "Item1", "Item2", "ItemX"])]

def TestCT : ClassTable :=
  [ ("BaseContainerCfg", ⟨"py_config.base_config", none, []⟩),
    ("BaseElementCfg", ⟨"py_config.base_config", some "BaseContainerCfg",
      [("class_path", .toptStr), ("base_class", .toptBool), ("kwargs", .tkwargs)]⟩),
    ("BaseItem", ⟨"base_config_test", some "BaseElementCfg", []⟩),
    ("Item1", ⟨"base_config_test", some "BaseItem", [("arg1", .tstr)]⟩),
    ("Item2", ⟨"base_config_test", some "Item1", [("arg2", .tstr)]⟩),
    ("ItemX", ⟨"base_config_test", some "BaseElementCfg", [("arg1", .tstr)]⟩),
    ("ContainerCfg", ⟨"base_config_test", some "BaseContainerCfg",
      [("item1", .telem "BaseItem"), ("item2", .telem "BaseItem")]⟩),
    ("ContainerX", ⟨"base_config_test", some "BaseContainerCfg",
      [("item", .telem "BaseItem")]⟩),
    ("ContainerList", ⟨"base_config_test", some "BaseContainerCfg",
      [("items", .tlistElem "Item1")]⟩),
    ("ContainerListBase", ⟨"base_config_test", some "BaseContainerCfg",
      [("items", .tlistElem "BaseItem")]⟩),
    ("ContainerDict", ⟨"base_config_test", some "BaseContainerCfg",
      [("items", .tdictElem "Item1")]⟩),
    ("ContainerDictBase", ⟨"base_config_test", some "BaseContainerCfg",
      [("items", .tdictElem "BaseItem")]⟩),
    ("ContainerStrList", ⟨"base_config_test", some "BaseContainerCfg",
      [("items", .tlistStr)]⟩),
    ("OuterCfg", ⟨"base_config_test", some "BaseContainerCfg",
      [("inner", .telem "ContainerCfg")]⟩) ]

/-! ## Association-list helper lemmas -/

theorem alookup_append (d₁ d₂ : Fields) (k : String) :
    alookup (d₁ ++ d₂) k =
      (match alookup d₁ k with
       | some w => some w
       | none => alookup d₂ k) := by
  induction d₁ with
  | nil => simp [alookup]
  | cons kv rest ih =>
    by_cases h : kv.1 = k
    · simp [alookup, h]
    · simp [alookup, h, ih]

theorem alookup_eq_none_of_hasKey_false (d : Fields) (k : String)
    (h : hasKey d k = false) : alookup d k = none := by
  cases ha : alookup d k with
  | none => rfl
  | some w => rw [hasKey, ha] at h; simp at h

theorem alookup_mapSet (d : Fields) (k k' : String) (v : Val) :
    alookup (d.map (fun kv => if kv.1 = k then (k, v) else kv)) k' =
      if k' = k then (if hasKey d k then some v else none) else alookup d k' := by
  induction d with
  | nil => by_cases h : k' = k <;> simp [alookup, hasKey, h]
  | cons kv rest ih =>
    obtain ⟨k₀, v₀⟩ := kv
    simp only [List.map_cons]
    by_cases h0 : k₀ = k
    · subst h0
      rw [show (if (k₀, v₀).1 = k₀ then (k₀, v) else (k₀, v₀)) = (k₀, v) from if_pos rfl]
      by_cases h : k' = k₀
      · simp_all [alookup, hasKey]
      · simp_all [alookup, hasKey, Ne.symm h]
    · rw [show (if (k₀, v₀).1 = k then (k, v) else (k₀, v₀)) = (k₀, v₀) from if_neg h0]
      by_cases h : k' = k <;> by_cases h2 : k₀ = k' <;>
        simp_all [alookup, hasKey]

theorem alookup_pySet (d : Fields) (k k' : String) (v : Val) :
    alookup (pySet d k v) k' = if k' = k then some v else alookup d k' := by
  unfold pySet
  by_cases hk : hasKey d k
  · simp [hk, alookup_mapSet]
  · simp only [hk, Bool.false_eq_true, if_false, alookup_append]
    by_cases h : k' = k
    · subst h
      rw [alookup_eq_none_of_hasKey_false d k' (by simpa using hk)]
      simp [alookup]
    · cases ha : alookup d k' with
      | some w => simp [ha, h]
      | none => simp [ha, alookup, h, Ne.symm h]

theorem hasKey_false_forall (d : Fields) (k : String)
    (h : hasKey d k = false) : ∀ kv ∈ d, kv.1 ≠ k := by
  induction d with
  | nil => intro kv hm; simp at hm
  | cons kv₀ rest ih =>
    intro kv hm he
    rw [hasKey, alookup] at h
    by_cases h0 : kv₀.1 = k
    · simp [h0] at h
    · rcases List.mem_cons.mp hm with hm | hm
      · rw [hm] at he; exact h0 he
      · refine ih ?_ kv hm he
        rw [hasKey]
        simpa [h0] using h

theorem hasKey_append (d₁ d₂ : Fields) (k : String) :
    hasKey (d₁ ++ d₂) k = (hasKey d₁ k || hasKey d₂ k) := by
  rw [hasKey, hasKey, hasKey, alookup_append]
  cases alookup d₁ k <;> simp

/-- `pyDictLit` over a duplicate-free list of fresh keys is just the
list itself. -/
theorem foldl_pySet_fresh : ∀ (l : List (String × Val)) (acc : Fields),
    (∀ kv ∈ l, hasKey acc kv.1 = false) →
    l.Pairwise (fun x y => x.1 ≠ y.1) →
    List.foldl (fun a kv => pySet a kv.1 kv.2) acc l = acc ++ l := by
  intro l
  induction l with
  | nil => intro acc _ _; simp
  | cons kv rest ih =>
    intro acc hfresh hpw
    have hk : hasKey acc kv.1 = false := hfresh kv (by simp)
    have hstep : pySet acc kv.1 kv.2 = acc ++ [kv] := by
      unfold pySet; simp [hk]
    rw [List.foldl_cons, hstep, ih (acc ++ [kv]) ?_ (List.Pairwise.sublist (by simp) hpw)]
    · simp
    · intro kv' hm
      rw [hasKey_append]
      have h1 : hasKey acc kv'.1 = false := hfresh kv' (by simp [hm])
      have h2 : hasKey [kv] kv'.1 = false := by
        rw [hasKey, alookup]
        have hne : kv.1 ≠ kv'.1 := (List.pairwise_cons.mp hpw).1 kv' hm
        simp [alookup, fun hh => hne hh]
      rw [h1, h2]
      rfl

theorem pyDictLit_fresh (l : List (String × Val))
    (hpw : l.Pairwise (fun x y => x.1 ≠ y.1)) : pyDictLit l = l := by
  rw [pyDictLit, foldl_pySet_fresh l [] (by intro kv _; rfl) hpw]
  simp

/-! ## Unfolding helpers for concrete container shapes

Each lemma below evaluates `constructBody` on a given container class and
document shape down to its first dependence on the nested construction
function `cf`; they hold by definitional unfolding since all control flow
up to that point is concrete. -/

/-- The pre root-validator of any `BaseElementCfg` subclass rejects a
mapping without `class_path` before anything else happens. -/
theorem elem_missing_cp (ct : ClassTable) (mt : ModuleTable) (fuel : Nat)
    (c : String) (d : Fields) (hE : derivesElement ct c = true)
    (h : hasKey d "class_path" = false) :
    construct ct mt (fuel + 1) c (.vdict d) = .error .missingTypeIdentifier := by
  rw [construct_succ]
  simp [constructBody, args_to_kwargs, hE, h]

theorem body_containerX_eval (cf : String → Val → Except Err Val) (d : Fields) :
    constructBody cf TestCT TestMT "ContainerX" (.vdict [("item", .vdict d)]) =
      match (match cf "BaseItem" (.vdict d) with
             | Except.error e => Except.error e
             | Except.ok v => Except.ok [("item", v)]) with
      | Except.error e => Except.error e
      | Except.ok vals =>
        match specializeValuesWith (specialize_fieldWith cf TestCT TestMT) TestCT vals with
        | Except.error e => Except.error e
        | Except.ok vals₂ => Except.ok (.vobj "ContainerX" vals₂) := rfl

theorem body_containerList_eval (cf : String → Val → Except Err Val) (d : Fields) :
    constructBody cf TestCT TestMT "ContainerList" (.vdict [("items", .vlist [.vdict d])]) =
      match (match (match (match cf "Item1" (.vdict d) with
                           | Except.error e => Except.error e
                           | Except.ok m => Except.ok [m]) with
                    | Except.error e => Except.error e
                    | Except.ok l' => Except.ok (Val.vlist l')) with
             | Except.error e => Except.error e
             | Except.ok v => Except.ok [("items", v)]) with
      | Except.error e => Except.error e
      | Except.ok vals =>
        match specializeValuesWith (specialize_fieldWith cf TestCT TestMT) TestCT vals with
        | Except.error e => Except.error e
        | Except.ok vals₂ => Except.ok (.vobj "ContainerList" vals₂) := rfl

theorem body_containerDict_eval (cf : String → Val → Except Err Val) (d : Fields) :
    constructBody cf TestCT TestMT "ContainerDict"
        (.vdict [("items", .vdict [("a", .vdict d)])]) =
      match (match (match (match cf "Item1" (.vdict d) with
                           | Except.error e => Except.error e
                           | Except.ok m => Except.ok [("a", m)]) with
                    | Except.error e => Except.error e
                    | Except.ok d' => Except.ok (Val.vdict d')) with
             | Except.error e => Except.error e
             | Except.ok v => Except.ok [("items", v)]) with
      | Except.error e => Except.error e
      | Except.ok vals =>
        match specializeValuesWith (specialize_fieldWith cf TestCT TestMT) TestCT vals with
        | Except.error e => Except.error e
        | Except.ok vals₂ => Except.ok (.vobj "ContainerDict" vals₂) := rfl

theorem body_outer_eval (cf : String → Val → Except Err Val) (dI : Fields) :
    constructBody cf TestCT TestMT "OuterCfg" (.vdict [("inner", .vdict dI)]) =
      match (match cf "ContainerCfg" (.vdict dI) with
             | Except.error e => Except.error e
             | Except.ok v => Except.ok [("inner", v)]) with
      | Except.error e => Except.error e
      | Except.ok vals =>
        match specializeValuesWith (specialize_fieldWith cf TestCT TestMT) TestCT vals with
        | Except.error e => Except.error e
        | Except.ok vals₂ => Except.ok (.vobj "OuterCfg" vals₂) := rfl

theorem body_containerCfg_eval (cf : String → Val → Except Err Val) (d d2 : Fields) :
    constructBody cf TestCT TestMT "ContainerCfg"
        (.vdict [("item1", .vdict d), ("item2", .vdict d2)]) =
      match (match cf "BaseItem" (.vdict d) with
             | Except.error e => Except.error e
             | Except.ok v1 =>
               match (match cf "BaseItem" (.vdict d2) with
                      | Except.error e => Except.error e
                      | Except.ok v2 => Except.ok [("item2", v2)]) with
               | Except.error e => Except.error e
               | Except.ok vs => Except.ok (("item1", v1) :: vs)) with
      | Except.error e => Except.error e
      | Except.ok vals =>
        match specializeValuesWith (specialize_fieldWith cf TestCT TestMT) TestCT vals with
        | Except.error e => Except.error e
        | Except.ok vals₂ => Except.ok (.vobj "ContainerCfg" vals₂) := rfl

/-! ## The claims -/

/-- Claim C3: an input mapping at a Dynamic Element position that lacks
the `class_path` key always makes construction fail with the
missing-type-identifier error, and no object graph is produced — for any
element class over any class table (first conjunct), and in particular
when the element sits behind a plain field, a sequence member, a map
value, or a field nested one aggregate deeper (remaining conjuncts, with
an arbitrary payload mapping `d`). -/
theorem claim3_missing_identifier_fails :
    (∀ (ct : ClassTable) (mt : ModuleTable) (fuel : Nat) (c : String) (d : Fields),
      derivesElement ct c = true → hasKey d "class_path" = false →
      construct ct mt (fuel + 1) c (.vdict d) = .error .missingTypeIdentifier)
    ∧ (∀ (fuel : Nat) (d : Fields), hasKey d "class_path" = false →
      construct TestCT TestMT (fuel + 1 + 1) "ContainerX" (.vdict [("item", .vdict d)])
        = .error .missingTypeIdentifier)
    ∧ (∀ (fuel : Nat) (d : Fields), hasKey d "class_path" = false →
      construct TestCT TestMT (fuel + 1 + 1) "ContainerList"
        (.vdict [("items", .vlist [.vdict d])]) = .error .missingTypeIdentifier)
    ∧ (∀ (fuel : Nat) (d : Fields), hasKey d "class_path" = false →
      construct TestCT TestMT (fuel + 1 + 1) "ContainerDict"
        (.vdict [("items", .vdict [("a", .vdict d)])]) = .error .missingTypeIdentifier)
    ∧ (∀ (fuel : Nat) (d d2 : Fields), hasKey d "class_path" = false →
      construct TestCT TestMT (fuel + 1 + 1 + 1) "OuterCfg"
        (.vdict [("inner", .vdict [("item1", .vdict d), ("item2", .vdict d2)])])
        = .error .missingTypeIdentifier) := by
  refine ⟨elem_missing_cp, ?_, ?_, ?_, ?_⟩
  · intro fuel d h
    rw [construct_succ, body_containerX_eval,
      elem_missing_cp TestCT TestMT fuel "BaseItem" d rfl h]
  · intro fuel d h
    rw [construct_succ, body_containerList_eval,
      elem_missing_cp TestCT TestMT fuel "Item1" d rfl h]
  · intro fuel d h
    rw [construct_succ, body_containerDict_eval,
      elem_missing_cp TestCT TestMT fuel "Item1" d rfl h]
  · intro fuel d d2 h
    rw [construct_succ, body_outer_eval, construct_succ, body_containerCfg_eval,
      elem_missing_cp TestCT TestMT fuel "BaseItem" d rfl h]

/-- Witness for C3 at a concrete input. -/
theorem claim3_witness :
    hasKey [("arg1", Val.vstr "a")] "class_path" = false ∧
    construct TestCT TestMT 3 "ContainerX" (.vdict [("item", .vdict [("arg1", .vstr "a")])])
      = .error .missingTypeIdentifier :=
  ⟨rfl, claim3_missing_identifier_fails.2.1 1 [("arg1", Val.vstr "a")] rfl⟩

/-- Claim C4: when the identifier of a Dynamic Element resolves to a
class whose method-resolution order does not contain the call-site class
`self.__class__`, `specialize_field` fails with the not-a-subclass error
and performs no construction (first conjunct, for any construction
continuation `cf`, table, and fields).  The remaining conjuncts replay
the repository's `test_not_subclass` scenario: `ItemX` is structurally
identical to `Item1` (same field names) and an element class, yet
resolving a `BaseItem`-declared field to it fails. -/
theorem claim4_not_a_subclass :
    (∀ (cf : String → Val → Except Err Val) (ct : ClassTable) (mt : ModuleTable)
        (selfCls path cls' : String) (f : Fields),
      alookup f "class_path" = some (.vstr path) →
      class_from_name mt path = .ok cls' →
      (getmro ct cls').contains selfCls = false →
      specialize_fieldWith cf ct mt selfCls f = .error .notASubclass)
    ∧ construct TestCT TestMT 10 "ContainerX"
        (.vdict [("item", .vdict
          [("class_path", .vstr "base_config_test.ItemX"), ("arg1", .vstr "arg1")])])
        = .error .notASubclass
    ∧ derivesElement TestCT "ItemX" = true
    ∧ (allFields TestCT "ItemX").map Prod.fst = (allFields TestCT "Item1").map Prod.fst := by
  refine ⟨?_, rfl, rfl, rfl⟩
  intro cf ct mt selfCls path cls' f h1 h2 h3
  have h3' : selfCls ∉ getmro ct cls' := by
    intro hmem
    have hc : (getmro ct cls').contains selfCls = true :=
      List.contains_iff_exists_mem_beq.mpr ⟨selfCls, hmem, by simp⟩
    rw [h3] at hc
    exact Bool.false_ne_true hc
  simp [specialize_fieldWith, h1, h2, h3']

/-- Witness for C4 at a concrete input. -/
theorem claim4_witness :
    specialize_fieldWith (fun _ v => Except.ok v) TestCT TestMT "BaseItem"
        [("class_path", .vstr "base_config_test.ItemX"), ("kwargs", .vdict [])]
      = .error .notASubclass :=
  claim4_not_a_subclass.1 (fun _ v => Except.ok v) TestCT TestMT "BaseItem"
    "base_config_test.ItemX" "ItemX" _ rfl rfl rfl

/-- Claim C5: the type resolver fails with the unresolved-type error both
when the namespace portion of the identifier is not among the loaded
modules and when the bare name is absent from the located module; being a
pure lookup over the module table it has no other effect. -/
theorem claim5_unresolved_type :
    (∀ (mt : ModuleTable) (path m n : String), rsplitDot path = (m, n) →
      alookup mt m = none → class_from_name mt path = .error .unresolvedType)
    ∧ (∀ (mt : ModuleTable) (path m n : String) (names : List String),
      rsplitDot path = (m, n) → alookup mt m = some names →
      names.contains n = false → class_from_name mt path = .error .unresolvedType) := by
  constructor
  · intro mt path m n hs hm
    simp [class_from_name, hs, hm]
  · intro mt path m n names hs hm hn
    have hn' : n ∉ names := by
      intro hmem
      have hc : names.contains n = true :=
        List.contains_iff_exists_mem_beq.mpr ⟨n, hmem, by simp⟩
      rw [hn] at hc
      exact Bool.false_ne_true hc
    simp [class_from_name, hs, hm, hn']

/-- Witness for C5 at concrete inputs (the test suite's own unresolvable
identifier `"p_test.Item"`, and a name absent from a located module). -/
theorem claim5_witness :
    class_from_name TestMT "p_test.Item" = .error .unresolvedType ∧
    class_from_name TestMT "base_config_test.Nope" = .error .unresolvedType :=
  ⟨claim5_unresolved_type.1 TestMT "p_test.Item" "p_test" "Item" rfl rfl,
   claim5_unresolved_type.2 TestMT "base_config_test.Nope" "base_config_test" "Nope"
     ["BaseItem", "Item1", "Item2", "ItemX"] rfl rfl rfl⟩

/-- Claim C9: a mapping that carries the resolution marker `base_class`
but lacks `class_path` still fails with the missing-type-identifier
error: the mandatory-identifier check of `args_to_kwargs` runs before the
marker branch consumes anything (first conjunct), so even a second-pass
construction of an element requires the identifier (second conjunct). -/
theorem claim9_marker_without_identifier :
    (∀ (values : Fields), hasKey values "base_class" = true →
      hasKey values "class_path" = false →
      args_to_kwargs values = .error .missingTypeIdentifier)
    ∧ (∀ (fuel : Nat) (x : String),
      construct TestCT TestMT (fuel + 1) "BaseItem"
        (.vdict [("base_class", .vbool false), ("arg1", .vstr x)])
        = .error .missingTypeIdentifier) := by
  constructor
  · intro values _ h2
    simp [args_to_kwargs, h2]
  · intro fuel x
    exact elem_missing_cp TestCT TestMT fuel "BaseItem" _ rfl rfl

/-- Witness for C9 at a concrete input. -/
theorem claim9_witness :
    args_to_kwargs [("base_class", .vbool false), ("arg1", .vstr "a")]
      = .error .missingTypeIdentifier :=
  claim9_marker_without_identifier.1 [("base_class", .vbool false), ("arg1", .vstr "a")] rfl rfl

/-- Counterexample to claim C1 as stated: in a sequence whose member
position is declared at the base type `BaseItem`, a member whose
identifier resolves to the proper subtype `Item1` is nevertheless built
and kept as a `BaseItem` instance — construction succeeds but the
member's runtime type is the base type, not the resolved subtype. -/
theorem claim1_counterexample :
    construct TestCT TestMT 10 "ContainerListBase" (.vdict
      [("items", .vlist [.vdict
        [("class_path", .vstr "base_config_test.Item1"), ("arg1", .vstr "x")]])])
      = .ok (.vobj "ContainerListBase"
          [("items", .vlist [.vobj "BaseItem"
            [("class_path", .vnone), ("base_class", .vnone), ("kwargs", .vnone)]])])
    ∧ class_from_name TestMT "base_config_test.Item1" = .ok "Item1"
    ∧ isSubcls TestCT "Item1" "BaseItem" = true
    ∧ "BaseItem" ≠ "Item1" :=
  ⟨rfl, rfl, rfl, by decide⟩

/-- Claim C1 (amended): for scalar Dynamic Element fields the claim holds
— construction succeeds and each field holds an instance of exactly the
resolved proper subtype, with the subtype's declared fields bound from
the captured raw payload (first conjunct, for arbitrary payload values).
Dynamic Elements in sequence (and map) member positions, however, are
constructed as the statically declared member type and never
re-specialized, so a member resolving to a proper subtype keeps the base
runtime type (second conjunct). -/
theorem claim1_scalar_specializes_members_stay :
    (∀ a b c : String,
      construct TestCT TestMT 10 "ContainerCfg" (.vdict
        [("item1", .vdict [("class_path", .vstr "base_config_test.Item1"), ("arg1", .vstr a)]),
         ("item2", .vdict [("class_path", .vstr "base_config_test.Item2"),
           ("arg1", .vstr b), ("arg2", .vstr c)])])
      = .ok (.vobj "ContainerCfg"
          [("item1", .vobj "Item1"
            [("class_path", .vnone), ("base_class", .vnone), ("kwargs", .vnone),
             ("arg1", .vstr a)]),
           ("item2", .vobj "Item2"
            [("class_path", .vnone), ("base_class", .vnone), ("kwargs", .vnone),
             ("arg1", .vstr b), ("arg2", .vstr c)])]))
    ∧ (∀ x : String,
      construct TestCT TestMT 10 "ContainerListBase" (.vdict
        [("items", .vlist [.vdict
          [("class_path", .vstr "base_config_test.Item1"), ("arg1", .vstr x)]])])
      = .ok (.vobj "ContainerListBase"
          [("items", .vlist [.vobj "BaseItem"
            [("class_path", .vnone), ("base_class", .vnone), ("kwargs", .vnone)]])]))
    ∧ class_from_name TestMT "base_config_test.Item1" = .ok "Item1"
    ∧ isSubcls TestCT "Item1" "BaseItem" = true :=
  ⟨fun a b c => rfl, fun x => rfl, rfl, rfl⟩

/-- Counterexample to claim C2 as stated: in the base-declared sequence
scenario the member is never specialized, and re-serializing the
normalized tree yields an empty mapping for it — dropping `arg1`, a
declared field of the resolved subtype `Item1`, instead of reproducing
the resolved subtype's declared fields. -/
theorem claim2_counterexample :
    (construct TestCT TestMT 10 "ContainerListBase" (.vdict
      [("items", .vlist [.vdict
        [("class_path", .vstr "base_config_test.Item1"), ("arg1", .vstr "y")]])])).map (dumpEN 10)
      = .ok (.vdict [("items", .vlist [.vdict []])])
    ∧ class_from_name TestMT "base_config_test.Item1" = .ok "Item1"
    ∧ (allFields TestCT "Item1").map Prod.fst = ["class_path", "base_class", "kwargs", "arg1"]
    ∧ "BaseItem" ≠ "Item1" :=
  ⟨rfl, rfl, rfl, by decide⟩

/-- Claim C2 (amended): after the normalizer completes, every Dynamic
Element reachable through the aggregate's fields has its three transient
bookkeeping attributes cleared, and re-serialization with the
exclude-cleared dump omits all three everywhere; scalar element fields
are additionally specialized, so their serialization reproduces exactly
the resolved subtype's declared fields (first conjunct), while sequence
members keep only the statically declared member type's fields (second
conjunct). -/
theorem claim2_cleanup_and_reserialization :
    (∀ a b c : String,
      (construct TestCT TestMT 10 "ContainerCfg" (.vdict
        [("item1", .vdict [("class_path", .vstr "base_config_test.Item1"), ("arg1", .vstr a)]),
         ("item2", .vdict [("class_path", .vstr "base_config_test.Item2"),
           ("arg1", .vstr b), ("arg2", .vstr c)])])).map (dumpEN 10)
      = .ok (.vdict [("item1", .vdict [("arg1", .vstr a)]),
          ("item2", .vdict [("arg1", .vstr b), ("arg2", .vstr c)])]))
    ∧ (∀ x : String,
      (construct TestCT TestMT 10 "ContainerListBase" (.vdict
        [("items", .vlist [.vdict
          [("class_path", .vstr "base_config_test.Item1"), ("arg1", .vstr x)]])])).map (dumpEN 10)
      = .ok (.vdict [("items", .vlist [.vdict []])])) :=
  ⟨fun a b c => rfl, fun x => rfl⟩

/-- Counterexample to claim C6 as stated: a sequence member that is not a
Dynamic Element (here a plain string in a `List[str]` field) is not
passed through — the sequence branch assigns the bookkeeping attributes
unconditionally, so normalization fails with an attribute error even
though field validation of the member had succeeded. -/
theorem claim6_counterexample :
    strListVal [.vstr "x"] = .ok [.vstr "x"]
    ∧ clearBookkeepingL TestCT (.vstr "x") = .error .attributeError
    ∧ construct TestCT TestMT 5 "ContainerStrList" (.vdict [("items", .vlist [.vstr "x"])])
      = .error .attributeError :=
  ⟨rfl, rfl, rfl⟩

/-- Claim C6 (amended): the sequence branch of the normalizer clears the
three bookkeeping attributes of every member unconditionally: members
that are model instances carrying the three fields are cleared (first
conjunct), while any member that is not such an instance makes
normalization fail with an attribute error (remaining conjuncts), so
only sequences whose members are all Dynamic Elements normalize without
error. -/
theorem claim6_sequence_cleanup :
    (∀ (ct : ClassTable) (c : String) (f : Fields),
      hasField ct c "class_path" = true → hasField ct c "base_class" = true →
      hasField ct c "kwargs" = true →
      clearBookkeepingL ct (.vobj c f) = .ok (.vobj c (setThree f)))
    ∧ (∀ (ct : ClassTable) (s : String),
      clearBookkeepingL ct (.vstr s) = .error .attributeError)
    ∧ (∀ (ct : ClassTable) (d : Fields),
      clearBookkeepingL ct (.vdict d) = .error .attributeError)
    ∧ (∀ a b : String,
      construct TestCT TestMT 5 "ContainerStrList"
        (.vdict [("items", .vlist [.vstr a, .vstr b])]) = .error .attributeError) := by
  refine ⟨?_, fun ct s => rfl, fun ct d => rfl, fun a b => rfl⟩
  intro ct c f h1 h2 h3
  simp [clearBookkeepingL, h1, h2, h3]

/-- Witness for C6 at a concrete input. -/
theorem claim6_witness :
    clearBookkeepingL TestCT (.vobj "BaseItem"
        [("class_path", .vstr "p"), ("base_class", .vnone), ("kwargs", .vdict [])])
      = .ok (.vobj "BaseItem"
          [("class_path", .vnone), ("base_class", .vnone), ("kwargs", .vnone)]) :=
  (claim6_sequence_cleanup.1 TestCT "BaseItem"
    [("class_path", .vstr "p"), ("base_class", .vnone), ("kwargs", .vdict [])]
    rfl rfl rfl).trans rfl

/-- Counterexample to claim C7 as stated: the fresh mapping built by
`specialize_field` carries the resolved type's *bare* class name
(`__name__`, here `"Item1"`) as the type identifier, not its
namespace-qualified name `"base_config_test.Item1"`.  The probe
continuation records exactly what is fed back into construction. -/
theorem claim7_counterexample :
    specializeArgs "Item1" [("arg1", .vstr "x")]
      = [("class_path", .vstr "Item1"), ("arg1", .vstr "x"), ("base_class", .vbool false)]
    ∧ specialize_fieldWith
        (fun cls v => Except.ok (.vobj "probe" [("cls", .vstr cls), ("args", v)]))
        TestCT TestMT "BaseItem"
        [("class_path", .vstr "base_config_test.Item1"), ("base_class", .vnone),
         ("kwargs", .vdict [("arg1", .vstr "x")])]
      = .ok (.vobj "probe" [("cls", .vstr "Item1"),
          ("args", .vdict [("class_path", .vstr "Item1"), ("arg1", .vstr "x"),
            ("base_class", .vbool false)])])
    ∧ qualifiedName TestCT "Item1" = "base_config_test.Item1"
    ∧ "Item1" ≠ "base_config_test.Item1" :=
  ⟨rfl, rfl, rfl, by decide⟩

/-- Claim C7 (amended): on a successful conformance check,
`specialize_field` feeds a fresh raw-field mapping back into normal
construction of the resolved subtype and returns only that
construction's result (the raw element object is not retained); the
mapping consists of exactly the resolved type's *bare* class name as the
type identifier, every key/value pair of the captured raw payload, and
the resolution marker set to `False` (second conjunct, for a payload
free of the two bookkeeping keys and without duplicate keys). -/
theorem claim7_fresh_mapping :
    (∀ (cf : String → Val → Except Err Val) (ct : ClassTable) (mt : ModuleTable)
        (selfCls path cls' : String) (f kw : Fields),
      alookup f "class_path" = some (.vstr path) →
      class_from_name mt path = .ok cls' →
      (getmro ct cls').contains selfCls = true →
      alookup f "kwargs" = some (.vdict kw) →
      specialize_fieldWith cf ct mt selfCls f = cf cls' (.vdict (specializeArgs cls' kw)))
    ∧ (∀ (cls' : String) (kw : Fields),
      hasKey kw "class_path" = false → hasKey kw "base_class" = false →
      kw.Pairwise (fun x y => x.1 ≠ y.1) →
      specializeArgs cls' kw
        = ("class_path", Val.vstr cls') :: kw ++ [("base_class", Val.vbool false)]) := by
  constructor
  · intro cf ct mt selfCls path cls' f kw h1 h2 h3 h4
    have h3' : selfCls ∈ getmro ct cls' := List.mem_of_elem_eq_true h3
    simp [specialize_fieldWith, h1, h2, h3', h4]
  · intro cls' kw hcp hbc hpw
    have hcp' := hasKey_false_forall kw "class_path" hcp
    have hbc' := hasKey_false_forall kw "base_class" hbc
    unfold specializeArgs
    apply pyDictLit_fresh
    refine List.pairwise_cons.mpr ⟨?_, List.pairwise_append.mpr ⟨hpw, ?_, ?_⟩⟩
    · intro y hy
      rcases List.mem_append.mp hy with hy | hy
      · exact Ne.symm (hcp' y hy)
      · simp only [List.mem_singleton] at hy
        subst hy
        show ("class_path" : String) ≠ "base_class"
        decide
    · exact List.pairwise_singleton _ _
    · intro x hx y hy
      simp only [List.mem_singleton] at hy
      subst hy
      exact hbc' x hx


/-- Witness for C7 at a concrete input. -/
theorem claim7_witness :
    specialize_fieldWith (fun _ _ => Except.error Err.outOfFuel) TestCT TestMT "BaseItem"
        [("class_path", .vstr "base_config_test.Item2"), ("kwargs", .vdict [("arg1", .vstr "q")])]
      = Except.error Err.outOfFuel
    ∧ specializeArgs "Item2" [("arg1", .vstr "q")]
      = [("class_path", .vstr "Item2"), ("arg1", .vstr "q"), ("base_class", .vbool false)] :=
  ⟨(claim7_fresh_mapping.1 (fun _ _ => Except.error Err.outOfFuel) TestCT TestMT
      "BaseItem" "base_config_test.Item2" "Item2"
      [("class_path", .vstr "base_config_test.Item2"), ("kwargs", .vdict [("arg1", .vstr "q")])]
      [("arg1", .vstr "q")] rfl rfl rfl rfl).trans rfl,
   claim7_fresh_mapping.2 "Item2" [("arg1", .vstr "q")] rfl rfl (by simp)⟩

/-! ## Structure-preservation helpers for C8 -/

theorem clearListElems_spec (ct : ClassTable) :
    ∀ (l l' : List Val), clearListElems ct l = .ok l' →
      l'.length = l.length ∧
      ∀ (i : Nat) (hi : i < l.length) (hi' : i < l'.length),
        clearBookkeepingL ct (l.get ⟨i, hi⟩) = .ok (l'.get ⟨i, hi'⟩)
  | [], l', h => by
    simp only [clearListElems] at h
    cases h
    exact ⟨rfl, fun i hi _ => absurd hi (by simp)⟩
  | v :: rest, l', h => by
    simp only [clearListElems] at h
    cases hb : clearBookkeepingL ct v with
    | error e => rw [hb] at h; cases h
    | ok v' =>
      rw [hb] at h
      cases hr : clearListElems ct rest with
      | error e => rw [hr] at h; cases h
      | ok rest' =>
        rw [hr] at h
        cases h
        obtain ⟨hlen, hpt⟩ := clearListElems_spec ct rest rest' hr
        refine ⟨by simp [hlen], ?_⟩
        intro i hi hi'
        match i with
        | 0 => simpa using hb
        | i + 1 => exact hpt i (by simpa using hi) (by simpa using hi')

theorem clearDictVals_keys (ct : ClassTable) :
    ∀ d : Fields, (clearDictVals ct d).map Prod.fst = d.map Prod.fst
  | [] => rfl
  | (kk, e) :: rest => by simp [clearDictVals, clearDictVals_keys ct rest]

theorem alookup_clearDictVals (ct : ClassTable) :
    ∀ (d : Fields) (k : String),
      alookup (clearDictVals ct d) k = (alookup d k).map (clearIfElem ct)
  | [], _ => rfl
  | (kk, e) :: rest, k => by
    by_cases h : kk = k <;>
      simp [clearDictVals, alookup, h, alookup_clearDictVals ct rest]

/-- Claim C8: specialization of containers preserves structure.  A
successfully normalized sequence has the same length and order as its
input, member by member (first conjunct); the map branch preserves keys
and their order (second conjunct) and acts on each value independently,
leaving non-Dynamic-Element values untouched (third and fourth
conjuncts); and in the concrete two-member scenarios, sequence members
and map values with distinct field values resolving to the same subtype
each survive independently with their own field values intact (last two
conjuncts, for arbitrary payloads). -/
theorem claim8_structure_preservation :
    (∀ (ct : ClassTable) (l l' : List Val), clearListElems ct l = .ok l' →
      l'.length = l.length ∧
      ∀ (i : Nat) (hi : i < l.length) (hi' : i < l'.length),
        clearBookkeepingL ct (l.get ⟨i, hi⟩) = .ok (l'.get ⟨i, hi'⟩))
    ∧ (∀ (ct : ClassTable) (d : Fields),
      (clearDictVals ct d).map Prod.fst = d.map Prod.fst)
    ∧ (∀ (ct : ClassTable) (d : Fields) (k : String),
      alookup (clearDictVals ct d) k = (alookup d k).map (clearIfElem ct))
    ∧ (∀ (ct : ClassTable) (v : Val),
      (∀ c f, v = .vobj c f → derivesElement ct c = false) → clearIfElem ct v = v)
    ∧ (∀ a b : String,
      construct TestCT TestMT 10 "ContainerList" (.vdict [("items", .vlist
        [.vdict [("class_path", .vstr "base_config_test.Item1"), ("arg1", .vstr a)],
         .vdict [("class_path", .vstr "base_config_test.Item1"), ("arg1", .vstr b)]])])
      = .ok (.vobj "ContainerList" [("items", .vlist
          [.vobj "Item1" [("class_path", .vnone), ("base_class", .vnone),
            ("kwargs", .vnone), ("arg1", .vstr a)],
           .vobj "Item1" [("class_path", .vnone), ("base_class", .vnone),
            ("kwargs", .vnone), ("arg1", .vstr b)]])]))
    ∧ (∀ a b : String,
      construct TestCT TestMT 10 "ContainerDict" (.vdict [("items", .vdict
        [("ka", .vdict [("class_path", .vstr "base_config_test.Item1"), ("arg1", .vstr a)]),
         ("kb", .vdict [("class_path", .vstr "base_config_test.Item1"), ("arg1", .vstr b)])])])
      = .ok (.vobj "ContainerDict" [("items", .vdict
          [("ka", .vobj "Item1" [("class_path", .vnone), ("base_class", .vnone),
            ("kwargs", .vnone), ("arg1", .vstr a)]),
           ("kb", .vobj "Item1" [("class_path", .vnone), ("base_class", .vnone),
            ("kwargs", .vnone), ("arg1", .vstr b)])])])) := by
  refine ⟨clearListElems_spec, clearDictVals_keys, alookup_clearDictVals, ?_,
    fun a b => rfl, fun a b => rfl⟩
  intro ct v hv
  cases v with
  | vobj c f => simp [clearIfElem, hv c f rfl]
  | vstr s => rfl
  | vbool b => rfl
  | vnone => rfl
  | vlist l => rfl
  | vdict d => rfl

/-- Witness for C8 at a concrete input. -/
theorem claim8_witness :
    ([Val.vobj "BaseItem" [("class_path", Val.vnone), ("base_class", Val.vnone),
        ("kwargs", Val.vnone)]] : List Val).length
      = ([Val.vobj "BaseItem" [("class_path", Val.vstr "p"), ("base_class", Val.vnone),
          ("kwargs", Val.vnone)]] : List Val).length :=
  (claim8_structure_preservation.1 TestCT
    [Val.vobj "BaseItem" [("class_path", Val.vstr "p"), ("base_class", Val.vnone),
      ("kwargs", Val.vnone)]]
    [Val.vobj "BaseItem" [("class_path", Val.vnone), ("base_class", Val.vnone),
      ("kwargs", Val.vnone)]] rfl).1

/-- Claim C10: for a keyed-map field the normalizer returns exactly the
per-value map of the clean-up function (first conjunct); on a value that
is a Dynamic Element the clean-up sets precisely the three bookkeeping
fields to the cleared value (second conjunct) while every other field
keeps the value it had before (third conjunct, an unconditional frame
property of the triple assignment), and a value that is not a Dynamic
Element is returned exactly equal to its input (fourth conjunct). -/
theorem claim10_map_frame :
    (∀ (sf : String → Fields → Except Err Val) (ct : ClassTable) (d : Fields),
      specEntryWith sf ct (.vdict d) = .ok (.vdict (clearDictVals ct d)))
    ∧ (∀ (ct : ClassTable) (c : String) (f : Fields), derivesElement ct c = true →
      clearIfElem ct (.vobj c f) = .vobj c (setThree f))
    ∧ (∀ (f : Fields) (k : String),
      alookup (setThree f) k =
        if k = "class_path" ∨ k = "base_class" ∨ k = "kwargs" then some Val.vnone
        else alookup f k)
    ∧ (∀ (ct : ClassTable) (v : Val),
      (∀ c f, v = .vobj c f → derivesElement ct c = false) → clearIfElem ct v = v) := by
  refine ⟨fun sf ct d => rfl, ?_, ?_, ?_⟩
  · intro ct c f h
    simp [clearIfElem, h]
  · intro f k
    simp only [setThree, alookup_pySet]
    by_cases h1 : k = "kwargs"
    · subst h1; rfl
    · by_cases h2 : k = "base_class"
      · subst h2; rfl
      · by_cases h3 : k = "class_path"
        · subst h3; rfl
        · simp [h1, h2, h3]
  · intro ct v hv
    cases v with
    | vobj c f => simp [clearIfElem, hv c f rfl]
    | vstr s => rfl
    | vbool b => rfl
    | vnone => rfl
    | vlist l => rfl
    | vdict d => rfl

/-- Witness for C10 at a concrete input. -/
theorem claim10_witness :
    clearIfElem TestCT (.vobj "Item1"
        [("class_path", .vstr "p"), ("base_class", .vbool false),
         ("kwargs", .vdict []), ("arg1", .vstr "v")])
      = .vobj "Item1"
          [("class_path", .vnone), ("base_class", .vnone), ("kwargs", .vnone),
           ("arg1", .vstr "v")]
    ∧ clearIfElem TestCT (.vstr "plain") = .vstr "plain" :=
  ⟨(claim10_map_frame.2.1 TestCT "Item1"
      [("class_path", .vstr "p"), ("base_class", .vbool false),
       ("kwargs", .vdict []), ("arg1", .vstr "v")] rfl).trans rfl,
   claim10_map_frame.2.2.2 TestCT (.vstr "plain") (fun c f h => Val.noConfusion h)⟩

end PyConfig
